import Mathlib

/-!
Verification of the selfsufficient backend (FastAPI + document store).

Shallow embedding of the route handlers that the specification talks
about.  Monetary amounts (Python floats holding decimal money values)
are modelled as rationals; document-store collections are modelled as
Lean lists of records, `find_one` as `List.find?`, `delete_many` as
`List.filter`, `delete_one` / `update_one` as removal / replacement of
the first matching record.
-/

namespace SelfSufficient

/-- Python `round(x, n)` (banker's rounding, half to even), idealized to
exact rationals: round `q * 10^n` to the nearest integer, ties to even,
then divide back. -/
def pyRound (n : ℕ) (q : ℚ) : ℚ :=
  let scaled : ℚ := q * (10 : ℚ) ^ n
  let f : ℤ := ⌊scaled⌋
  let r : ℚ := scaled - (f : ℚ)
  let i : ℤ :=
    if r < 1/2 then f
    else if 1/2 < r then f + 1
    else if f % 2 = 0 then f else f + 1
  (i : ℚ) / (10 : ℚ) ^ n

/-- Python truthiness of an optional string field (`None` and `""` are
falsy). -/
def optTruthy : Option String → Bool
  | none => false
  | some s => !(s == "")

/-! ## Budget data model (`models/budget.py`) -/

/-- `ExpenseType` enum. -/
inductive ItemType
  | income
  | expense
  deriving DecidableEq, Repr

/-- `ExpenseFrequency` enum. -/
inductive Frequency
  | monthly
  | yearly
  | one_time
  deriving DecidableEq, Repr

/-- A stored finance transaction document (the fields read by the budget
comparison, the savings-goal progress and the account balance). -/
structure TxM where
  id : String
  date : String
  amount : ℚ
  account_id : String := ""
  category_id : Option String := none
  savings_goal_id : Option String := none
  notes : Option String := none
  deriving DecidableEq, Repr

/-- A stored expected item document (`expected_items` collection). -/
structure ExpectedItem where
  id : String
  name : String
  amount : ℚ
  item_type : ItemType
  frequency : Frequency
  category_id : Option String := none
  month : Option String := none
  deriving DecidableEq, Repr

/-- The `{id, date, amount, notes}` dict appended to `matched_txs` in
`get_monthly_budget_comparison`. -/
structure MatchedTx where
  id : String
  date : String
  amount : ℚ
  notes : Option String
  deriving DecidableEq, Repr

def MatchedTx.ofTx (tx : TxM) : MatchedTx :=
  ⟨tx.id, tx.date, tx.amount, tx.notes⟩

/-- `month[5:7]` of a `YYYY-MM` string: the month component. -/
def monthComponent (month : String) : String :=
  (month.drop 5).take 2

/-- The "does this item apply to this month" test of
`get_monthly_budget_comparison` (budget.py lines 404-420).
`item.get("month", "01")` / `item.get("month", "")` are modelled by
`Option.getD`. -/
def itemApplies (item : ExpectedItem) (month : String) : Bool :=
  match item.frequency with
  | .monthly => true
  | .yearly =>
      let item_month := item.month.getD "01"
      if item_month.length == 2 then item_month == monthComponent month
      else item_month == month
  | .one_time => item.month.getD "" == month

/-- The per-transaction match test of `get_monthly_budget_comparison`
(budget.py lines 437-453): match by category when the item has a
(truthy) category id, otherwise by sign and 15% amount tolerance. -/
def txMatchesItem (item : ExpectedItem) (tx : TxM) : Bool :=
  if optTruthy item.category_id then
    tx.category_id == item.category_id
  else
    let tx_is_income := decide (0 < tx.amount)
    let item_is_income := item.item_type == ItemType.income
    let amount_diff := |(|tx.amount|) - item.amount|
    let tolerance := item.amount * (0.15 : ℚ)
    tx_is_income == item_is_income && decide (amount_diff ≤ tolerance)

/-- The inner `for tx in transactions` loop of
`get_monthly_budget_comparison` for one expected item: transactions
whose id is already in `used_transaction_ids` are skipped, matched
transactions are appended to `matched_txs` and their ids added to
`used_transaction_ids`. -/
def matchItemTransactions (item : ExpectedItem) :
    List TxM → List String → List MatchedTx × List String
  | [], used => ([], used)
  | tx :: rest, used =>
    if tx.id ∈ used then
      matchItemTransactions item rest used
    else if txMatchesItem item tx then
      let r := matchItemTransactions item rest (tx.id :: used)
      (MatchedTx.ofTx tx :: r.1, r.2)
    else
      matchItemTransactions item rest used

/-- `MonthlyBudgetItem` response model. -/
structure MonthlyBudgetItem where
  expected_item_id : String
  name : String
  item_type : ItemType
  frequency : Frequency
  expected_amount : ℚ
  actual_amount : ℚ
  difference : ℚ
  is_matched : Bool
  matched_transactions : List MatchedTx
  deriving DecidableEq, Repr

/-- Accumulated state of the `for item in expected_items` loop. -/
structure CompState where
  expected_income : ℚ
  expected_expenses : ℚ
  items : List MonthlyBudgetItem
  used : List String
  deriving Repr

/-- The `for item in expected_items` loop of
`get_monthly_budget_comparison` (budget.py lines 403-473): items that do
not apply to the month are skipped entirely; applying items accumulate
the expected totals and claim matching transactions through the shared
`used_transaction_ids` set. -/
def processExpectedItems (month : String) (txs : List TxM) :
    List ExpectedItem → List String → CompState
  | [], used => ⟨0, 0, [], used⟩
  | item :: rest, used =>
    if itemApplies item month then
      let m := matchItemTransactions item txs used
      let actual : ℚ := (m.1.map fun t => |t.amount|).sum
      let bi : MonthlyBudgetItem :=
        { expected_item_id := item.id
          name := item.name
          item_type := item.item_type
          frequency := item.frequency
          expected_amount := item.amount
          actual_amount := pyRound 2 actual
          difference := pyRound 2 (actual - item.amount)
          is_matched := !m.1.isEmpty
          matched_transactions := m.1 }
      let st := processExpectedItems month txs rest m.2
      ⟨(if item.item_type == ItemType.income then item.amount else 0) + st.expected_income,
       (if item.item_type == ItemType.income then 0 else item.amount) + st.expected_expenses,
       bi :: st.items,
       st.used⟩
    else
      processExpectedItems month txs rest used

/-- A stored finance category document (fields used by the budget
comparison). -/
structure Category where
  id : String
  name : String
  type : String
  deriving DecidableEq, Repr

/-- `cat_map.get(tx.get("category_id"))`: look a transaction's optional
category id up in the fetched categories. -/
def catLookup (cats : List Category) (cid : Option String) : Option Category :=
  cid.bind fun c => cats.find? fun cat => cat.id == c

/-- One entry of `unmatched_transactions`. -/
structure UnmatchedTx where
  id : String
  date : String
  amount : ℚ
  notes : Option String
  category : String
  deriving DecidableEq, Repr

/-- Stable insertion of `x` behind every element it is not strictly
below (models the stability of Python `list.sort`). -/
def insertStable (lt : α → α → Bool) (x : α) : List α → List α
  | [] => [x]
  | y :: ys => if lt x y then x :: y :: ys else y :: insertStable lt x ys

/-- Stable sort by a strict comparison, modelling Python `list.sort`. -/
def stableSort (lt : α → α → Bool) (l : List α) : List α :=
  l.foldl (fun acc x => insertStable lt x acc) []

/-- Strict order on the sort key `(x.is_matched, -x.expected_amount)`
used at budget.py line 499 (`False < True`, then larger expected amount
first). -/
def budgetItemLt (a b : MonthlyBudgetItem) : Bool :=
  decide (a.is_matched.toNat < b.is_matched.toNat) ||
    (a.is_matched == b.is_matched && decide (-a.expected_amount < -b.expected_amount))

/-- `MonthlyBudgetComparison` response model (period lookup fields are
omitted; the function below receives the found period's items
directly). -/
structure MonthlyBudgetComparison where
  month : String
  expected_income : ℚ
  expected_expenses : ℚ
  expected_profit : ℚ
  actual_income : ℚ
  actual_expenses : ℚ
  actual_profit : ℚ
  income_difference : ℚ
  expense_difference : ℚ
  profit_difference : ℚ
  items : List MonthlyBudgetItem
  unmatched_transactions : List UnmatchedTx
  deriving DecidableEq, Repr

/-- The `actual_income` / `actual_expenses` fold over all transactions
(budget.py lines 476-487). -/
def actualTotals (cats : List Category) : List TxM → ℚ × ℚ
  | [] => (0, 0)
  | tx :: rest =>
    let t := actualTotals cats rest
    let cat_type := ((catLookup cats tx.category_id).map Category.type).getD "expense"
    if 0 < tx.amount || cat_type == "income" then (|tx.amount| + t.1, t.2)
    else (t.1, |tx.amount| + t.2)

/-- The body of `get_monthly_budget_comparison` (budget.py lines
397-516) after the database fetches: `expected_items` are the found
period's items, `transactions` the month's transactions and `cats` the
categories referenced by them. -/
def get_monthly_budget_comparison (expected_items : List ExpectedItem)
    (month : String) (transactions : List TxM) (cats : List Category) :
    MonthlyBudgetComparison :=
  let st := processExpectedItems month transactions expected_items []
  let at_ := actualTotals cats transactions
  let unmatched : List UnmatchedTx :=
    (transactions.filter fun tx => !(tx.id ∈ st.used)).map fun tx =>
      { id := tx.id, date := tx.date, amount := tx.amount, notes := tx.notes
        category := ((catLookup cats tx.category_id).map Category.name).getD "Unknown" }
  { month := month
    expected_income := pyRound 2 st.expected_income
    expected_expenses := pyRound 2 st.expected_expenses
    expected_profit := pyRound 2 (st.expected_income - st.expected_expenses)
    actual_income := pyRound 2 at_.1
    actual_expenses := pyRound 2 at_.2
    actual_profit := pyRound 2 (at_.1 - at_.2)
    income_difference := pyRound 2 (at_.1 - st.expected_income)
    expense_difference := pyRound 2 (at_.2 - st.expected_expenses)
    profit_difference := pyRound 2 ((at_.1 - at_.2) - (st.expected_income - st.expected_expenses))
    items := stableSort budgetItemLt st.items
    unmatched_transactions := unmatched }

/-! ## Lemmas about the budget matching loop -/

theorem matchItemTransactions_used_mono (item : ExpectedItem) :
    ∀ (txs : List TxM) (used : List String),
      used ⊆ (matchItemTransactions item txs used).2 := by
  intro txs
  induction txs with
  | nil => intro used; simp [matchItemTransactions]
  | cons tx rest ih =>
    intro used
    by_cases h1 : tx.id ∈ used
    · simpa [matchItemTransactions, h1] using ih used
    · by_cases h2 : txMatchesItem item tx
      · simp only [matchItemTransactions, h1, h2, if_false, if_true, ite_false, ite_true]
        exact fun s hs => ih (tx.id :: used) (List.mem_cons_of_mem _ hs)
      · simpa [matchItemTransactions, h1, h2] using ih used

theorem matchItemTransactions_matched_mem_used (item : ExpectedItem) :
    ∀ (txs : List TxM) (used : List String),
      ∀ t ∈ (matchItemTransactions item txs used).1,
        t.id ∈ (matchItemTransactions item txs used).2 := by
  intro txs
  induction txs with
  | nil => intro used t ht; simp [matchItemTransactions] at ht
  | cons tx rest ih =>
    intro used t ht
    by_cases h1 : tx.id ∈ used
    · simp only [matchItemTransactions, h1, ite_true] at ht ⊢
      exact ih used t ht
    · by_cases h2 : txMatchesItem item tx
      · simp only [matchItemTransactions, h1, h2, ite_false, ite_true] at ht ⊢
        rcases List.mem_cons.mp ht with h | h
        · subst h
          exact matchItemTransactions_used_mono item rest (tx.id :: used)
            (List.mem_cons_self _ _)
        · exact ih (tx.id :: used) t h
      · simp only [matchItemTransactions, h1, h2, ite_false, ite_true] at ht ⊢
        exact ih used t ht

theorem matchItemTransactions_matched_fresh (item : ExpectedItem) :
    ∀ (txs : List TxM) (used : List String),
      ∀ t ∈ (matchItemTransactions item txs used).1, t.id ∉ used := by
  intro txs
  induction txs with
  | nil => intro used t ht; simp [matchItemTransactions] at ht
  | cons tx rest ih =>
    intro used t ht
    by_cases h1 : tx.id ∈ used
    · simp only [matchItemTransactions, h1, ite_true] at ht
      exact ih used t ht
    · by_cases h2 : txMatchesItem item tx
      · simp only [matchItemTransactions, h1, h2, ite_false, ite_true] at ht
        rcases List.mem_cons.mp ht with h | h
        · subst h; exact h1
        · intro hmem
          exact ih (tx.id :: used) t h (List.mem_cons_of_mem _ hmem)
      · simp only [matchItemTransactions, h1, h2, ite_false, ite_true] at ht
        exact ih used t ht

theorem matchItemTransactions_matched_nodup (item : ExpectedItem) :
    ∀ (txs : List TxM) (used : List String),
      ((matchItemTransactions item txs used).1.map MatchedTx.id).Nodup := by
  intro txs
  induction txs with
  | nil => intro used; simp [matchItemTransactions]
  | cons tx rest ih =>
    intro used
    by_cases h1 : tx.id ∈ used
    · simpa only [matchItemTransactions, h1, ite_true] using ih used
    · by_cases h2 : txMatchesItem item tx
      · simp only [matchItemTransactions, h1, h2, ite_false, ite_true, List.map_cons,
          List.nodup_cons]
        refine ⟨?_, ih (tx.id :: used)⟩
        intro hmem
        rcases List.mem_map.mp hmem with ⟨t, ht, hid⟩
        have := matchItemTransactions_matched_fresh item rest (tx.id :: used) t ht
        exact this (hid ▸ List.mem_cons_self _ _)
      · simpa only [matchItemTransactions, h1, h2, ite_false, ite_true] using ih used

theorem processExpectedItems_used_mono (month : String) (txs : List TxM) :
    ∀ (items : List ExpectedItem) (used : List String),
      used ⊆ (processExpectedItems month txs items used).used := by
  intro items
  induction items with
  | nil => intro used; simp [processExpectedItems]
  | cons item rest ih =>
    intro used
    by_cases h1 : itemApplies item month
    · simp only [processExpectedItems, h1, ite_true]
      exact fun s hs =>
        ih _ (matchItemTransactions_used_mono item txs used hs)
    · simpa only [processExpectedItems, h1, ite_false] using ih used

theorem processExpectedItems_matched_fresh (month : String) (txs : List TxM) :
    ∀ (items : List ExpectedItem) (used : List String),
      ∀ bi ∈ (processExpectedItems month txs items used).items,
        ∀ t ∈ bi.matched_transactions, t.id ∉ used := by
  intro items
  induction items with
  | nil => intro used bi hbi; simp [processExpectedItems] at hbi
  | cons item rest ih =>
    intro used bi hbi t ht
    by_cases h1 : itemApplies item month
    · simp only [processExpectedItems, h1, ite_true, List.mem_cons] at hbi
      rcases hbi with h | h
      · subst h
        exact matchItemTransactions_matched_fresh item txs used t ht
      · intro hmem
        exact ih _ bi h t ht (matchItemTransactions_used_mono item txs used hmem)
    · simp only [processExpectedItems, h1, ite_false] at hbi
      exact ih used bi hbi t ht

theorem processExpectedItems_pairwise_disjoint (month : String) (txs : List TxM) :
    ∀ (items : List ExpectedItem) (used : List String),
      (processExpectedItems month txs items used).items.Pairwise
        (fun a b => ∀ s, s ∈ a.matched_transactions.map MatchedTx.id →
          s ∉ b.matched_transactions.map MatchedTx.id) := by
  intro items
  induction items with
  | nil => intro used; simp [processExpectedItems]
  | cons item rest ih =>
    intro used
    by_cases h1 : itemApplies item month
    · simp only [processExpectedItems, h1, ite_true, List.pairwise_cons]
      refine ⟨?_, ih _⟩
      intro bi hbi s hs
      rcases List.mem_map.mp hs with ⟨t, ht, hid⟩
      intro hsb
      rcases List.mem_map.mp hsb with ⟨u, hu, huid⟩
      have hfresh := processExpectedItems_matched_fresh month txs rest
        (matchItemTransactions item txs used).2 bi hbi u hu
      have hmem := matchItemTransactions_matched_mem_used item txs used t ht
      rw [hid] at hmem
      rw [huid] at hfresh
      exact hfresh hmem
    · simpa only [processExpectedItems, h1, ite_false] using ih used

theorem processExpectedItems_matched_nodup (month : String) (txs : List TxM) :
    ∀ (items : List ExpectedItem) (used : List String),
      ∀ bi ∈ (processExpectedItems month txs items used).items,
        (bi.matched_transactions.map MatchedTx.id).Nodup := by
  intro items
  induction items with
  | nil => intro used bi hbi; simp [processExpectedItems] at hbi
  | cons item rest ih =>
    intro used bi hbi
    by_cases h1 : itemApplies item month
    · simp only [processExpectedItems, h1, ite_true, List.mem_cons] at hbi
      rcases hbi with h | h
      · subst h
        exact matchItemTransactions_matched_nodup item txs used
      · exact ih _ bi h
    · simp only [processExpectedItems, h1, ite_false] at hbi
      exact ih used bi hbi

/-! ## Sample inputs used by the witnesses -/

/-- A category-less monthly expected expense of 100. -/
def exItemRent : ExpectedItem :=
  { id := "i1", name := "Rent", amount := 100, item_type := .expense, frequency := .monthly }

/-- A yearly expected item stored with 2-digit month `"06"`. -/
def exItemInsurance : ExpectedItem :=
  { id := "i2", name := "Insurance", amount := 300, item_type := .expense,
    frequency := .yearly, month := some "06" }

/-- A transaction of -90 (an expense within 15% of 100). -/
def exTxRent : TxM := { id := "t1", date := "2024-06-05", amount := -90 }

/-- A second transaction of -95 (also within 15% of 100). -/
def exTxRent2 : TxM := { id := "t2", date := "2024-06-20", amount := -95 }

/-- C1: in the monthly budget comparison each transaction id is claimed
by at most one expected item (matched id lists of distinct items are
pairwise disjoint, and no id repeats within one item), and re-running
the comparison on equal inputs yields the identical result, so in
particular the identical matched/unmatched partition of the month's
transactions. -/
theorem budget_matching_at_most_once_and_deterministic
    (expected_items : List ExpectedItem) (month : String) (transactions : List TxM) :
    ((processExpectedItems month transactions expected_items []).items.Pairwise
        fun a b => ∀ s, s ∈ a.matched_transactions.map MatchedTx.id →
          s ∉ b.matched_transactions.map MatchedTx.id)
    ∧ (∀ bi ∈ (processExpectedItems month transactions expected_items []).items,
        (bi.matched_transactions.map MatchedTx.id).Nodup)
    ∧ ∀ (items2 : List ExpectedItem) (month2 : String) (txs2 : List TxM)
        (cats cats2 : List Category),
        items2 = expected_items → month2 = month → txs2 = transactions → cats2 = cats →
        get_monthly_budget_comparison items2 month2 txs2 cats2 =
          get_monthly_budget_comparison expected_items month transactions cats := by
  refine ⟨processExpectedItems_pairwise_disjoint month transactions expected_items [],
    processExpectedItems_matched_nodup month transactions expected_items [], ?_⟩
  rintro _ _ _ _ _ rfl rfl rfl rfl
  rfl

/-- Witness for C1 at a concrete input: two equal expected items compete
for two transactions that both match either item. -/
theorem budget_matching_at_most_once_witness :
    (((processExpectedItems "2024-06" [exTxRent, exTxRent2]
        [exItemRent, exItemRent] []).items.Pairwise
        fun a b => ∀ s, s ∈ a.matched_transactions.map MatchedTx.id →
          s ∉ b.matched_transactions.map MatchedTx.id)
      ∧ (∀ bi ∈ (processExpectedItems "2024-06" [exTxRent, exTxRent2]
          [exItemRent, exItemRent] []).items,
          (bi.matched_transactions.map MatchedTx.id).Nodup))
    ∧ get_monthly_budget_comparison [exItemRent, exItemRent] "2024-06"
        [exTxRent, exTxRent2] [] =
      get_monthly_budget_comparison [exItemRent, exItemRent] "2024-06"
        [exTxRent, exTxRent2] [] := by
  obtain ⟨h1, h2, h3⟩ := budget_matching_at_most_once_and_deterministic
    [exItemRent, exItemRent] "2024-06" [exTxRent, exTxRent2]
  exact ⟨⟨h1, h2⟩, h3 _ _ _ [] [] rfl rfl rfl rfl⟩

/-- C2: a transaction matches a category-less expected item iff the
transaction's income/expense sign (`amount > 0` means income) equals
the item's type and `abs(abs(tx.amount) - expected.amount) <=
expected.amount * 0.15`; an expected amount of 0 matches only
transactions of amount exactly 0. -/
theorem txMatchesItem_no_category_iff (item : ExpectedItem) (tx : TxM)
    (h : item.category_id = none) :
    (txMatchesItem item tx = true ↔
      ((0 < tx.amount ↔ item.item_type = ItemType.income)
        ∧ |(|tx.amount|) - item.amount| ≤ item.amount * (0.15 : ℚ)))
    ∧ (item.amount = 0 → txMatchesItem item tx = true → tx.amount = 0) := by
  have hmain : txMatchesItem item tx = true ↔
      ((0 < tx.amount ↔ item.item_type = ItemType.income)
        ∧ |(|tx.amount|) - item.amount| ≤ item.amount * (0.15 : ℚ)) := by
    have hb1 : (ItemType.expense == ItemType.income) = false := rfl
    have hb2 : (ItemType.income == ItemType.income) = true := rfl
    cases hty : item.item_type <;>
      simp [txMatchesItem, h, optTruthy, hty, hb1, hb2, decide_eq_true_eq,
        decide_eq_false_iff_not, not_lt]
  refine ⟨hmain, ?_⟩
  intro h0 hmatch
  have := (hmain.mp hmatch).2
  rw [h0] at this
  simp only [sub_zero, zero_mul, abs_abs] at this
  exact abs_nonpos_iff.mp this

/-- Witness for C2: the concrete category-less item of amount 100
against a transaction of amount -90. -/
theorem txMatchesItem_no_category_iff_witness :
    exItemRent.category_id = none
    ∧ ((txMatchesItem exItemRent exTxRent = true ↔
        ((0 < exTxRent.amount ↔ exItemRent.item_type = ItemType.income)
          ∧ |(|exTxRent.amount|) - exItemRent.amount| ≤ exItemRent.amount * (0.15 : ℚ)))
      ∧ (exItemRent.amount = 0 → txMatchesItem exItemRent exTxRent = true →
          exTxRent.amount = 0)) :=
  ⟨rfl, txMatchesItem_no_category_iff exItemRent exTxRent rfl⟩

/-- C3: an expected item with a stored month applies to target month
`YYYY-MM` exactly when its frequency is monthly, or it is yearly and the
stored month (2-digit `MM`, otherwise the full string) equals the
target's month component (resp. the full target), or it is one_time and
the stored month equals the target exactly; an item that does not apply
contributes nothing to the expected totals, the budget items or the
matching. -/
theorem itemApplies_iff_and_skip (item : ExpectedItem) (month : String) (m : String)
    (hm : item.month = some m) :
    (itemApplies item month = true ↔
      item.frequency = Frequency.monthly
      ∨ (item.frequency = Frequency.yearly ∧
          ((m.length = 2 ∧ m = monthComponent month) ∨ (m.length ≠ 2 ∧ m = month)))
      ∨ (item.frequency = Frequency.one_time ∧ m = month))
    ∧ (itemApplies item month = false →
        ∀ (txs : List TxM) (rest : List ExpectedItem) (used : List String),
          processExpectedItems month txs (item :: rest) used =
            processExpectedItems month txs rest used) := by
  constructor
  · cases hf : item.frequency with
    | monthly => simp [itemApplies, hf]
    | yearly =>
      by_cases hl : m.length = 2 <;>
        simp [itemApplies, hf, hm, hl]
    | one_time => simp [itemApplies, hf, hm]
  · intro h txs rest used
    simp [processExpectedItems, h]

/-- Witness for C3: a yearly item stored with month `"06"` against
target month `"2024-06"`. -/
theorem itemApplies_iff_and_skip_witness :
    exItemInsurance.month = some "06"
    ∧ ((itemApplies exItemInsurance "2024-06" = true ↔
        exItemInsurance.frequency = Frequency.monthly
        ∨ (exItemInsurance.frequency = Frequency.yearly ∧
            ((("06" : String).length = 2 ∧ "06" = monthComponent "2024-06")
              ∨ (("06" : String).length ≠ 2 ∧ "06" = "2024-06")))
        ∨ (exItemInsurance.frequency = Frequency.one_time ∧ "06" = "2024-06"))
      ∧ (itemApplies exItemInsurance "2024-06" = false →
          ∀ (txs : List TxM) (rest : List ExpectedItem) (used : List String),
            processExpectedItems "2024-06" txs (exItemInsurance :: rest) used =
              processExpectedItems "2024-06" txs rest used)) :=
  ⟨rfl, itemApplies_iff_and_skip exItemInsurance "2024-06" "06" rfl⟩

/-! ## Savings goals (`routes/finance.py`) -/

/-- A stored savings goal document (fields used by the progress
computation). -/
structure SavingsGoal where
  id : String
  target_amount : ℚ
  deriving DecidableEq, Repr

/-- `calculate_savings_goal_progress` (finance.py lines 714-722): the
aggregation sums the amounts of the transactions whose
`savings_goal_id` is the goal's id, and the absolute value of that sum
is returned (when no transaction matches the aggregation yields no row
and the code returns `0.0`, which coincides with `|0|`). -/
def calculate_savings_goal_progress (txs : List TxM) (goal_id : String) : ℚ :=
  |((txs.filter fun tx => tx.savings_goal_id == some goal_id).map TxM.amount).sum|

/-- The two computed fields of a `SavingsGoalResponse`. -/
structure SavingsGoalProgress where
  current_amount : ℚ
  progress_percent : ℚ
  deriving DecidableEq, Repr

/-- The per-goal response computation of `list_savings_goals`
(finance.py lines 769-779): `progress = current / target * 100` when
`target > 0` else `0`, reported as `round(min(progress, 100), 1)`, and
`current_amount` reported as `round(current, 2)`. -/
def savings_goal_response (txs : List TxM) (goal : SavingsGoal) : SavingsGoalProgress :=
  let current_amount := calculate_savings_goal_progress txs goal.id
  let progress : ℚ :=
    if goal.target_amount > 0 then current_amount / goal.target_amount * 100 else 0
  { current_amount := pyRound 2 current_amount
    progress_percent := pyRound 1 (min progress 100) }

/-- `pyRound` leaves integer values unchanged. -/
theorem pyRound_int (n : ℕ) (z : ℤ) : pyRound n ((z : ℚ)) = (z : ℚ) := by
  have h10 : ((10 : ℚ) ^ n) ≠ 0 := by positivity
  have hfloor : ⌊(z : ℚ) * (10 : ℚ) ^ n⌋ = z * 10 ^ n := by
    rw [show ((z : ℚ) * (10 : ℚ) ^ n) = (((z * 10 ^ n : ℤ) : ℚ)) by push_cast; ring]
    exact Int.floor_intCast _
  simp only [pyRound, hfloor]
  rw [show (((z * 10 ^ n : ℤ) : ℚ)) = (z : ℚ) * (10 : ℚ) ^ n by push_cast; ring]
  simp only [sub_self]
  norm_num

/-- A transaction of -50 assigned to savings goal `"g"`. -/
def exTxSavings : TxM :=
  { id := "t3", date := "2024-06-07", amount := -50, savings_goal_id := some "g" }

/-- The savings goal `"g"` with target 100. -/
def exGoal : SavingsGoal := { id := "g", target_amount := 100 }

/-- C4 counterexample: for a goal whose only referencing transaction has
amount -50 the reported `current_amount` is 50 (the absolute value of
the sum), not the plain sum -50 the claim asserts. -/
theorem savings_goal_plain_sum_counterexample :
    (savings_goal_response [exTxSavings] exGoal).current_amount = 50
    ∧ (([exTxSavings].filter fun tx =>
        tx.savings_goal_id == some exGoal.id).map TxM.amount).sum = -50
    ∧ (savings_goal_response [exTxSavings] exGoal).current_amount ≠
        (([exTxSavings].filter fun tx =>
          tx.savings_goal_id == some exGoal.id).map TxM.amount).sum := by
  have hsum : (([exTxSavings].filter fun tx =>
      tx.savings_goal_id == some exGoal.id).map TxM.amount).sum = -50 := by
    norm_num [exTxSavings, exGoal]
  have hcur : (savings_goal_response [exTxSavings] exGoal).current_amount = 50 := by
    simp only [savings_goal_response, calculate_savings_goal_progress]
    rw [hsum]
    rw [show |(-50 : ℚ)| = ((50 : ℤ) : ℚ) by norm_num]
    rw [pyRound_int]
    norm_num
  refine ⟨hcur, hsum, ?_⟩
  rw [hcur, hsum]
  norm_num

/-- C4 amended: the reported `current_amount` equals the absolute value
of the sum of the amounts of the transactions referencing the goal
(rounded to 2 decimals), and `progress_percent` equals
`min(100, current_amount / target_amount * 100)` rounded to 1 decimal
when `target_amount > 0`, else 0. -/
theorem savings_goal_progress_amended (txs : List TxM) (goal : SavingsGoal) :
    (savings_goal_response txs goal).current_amount =
      pyRound 2 |((txs.filter fun tx =>
        tx.savings_goal_id == some goal.id).map TxM.amount).sum|
    ∧ (savings_goal_response txs goal).progress_percent =
        (if 0 < goal.target_amount then
          pyRound 1 (min 100
            (|((txs.filter fun tx =>
              tx.savings_goal_id == some goal.id).map TxM.amount).sum| /
                goal.target_amount * 100))
         else 0) := by
  refine ⟨rfl, ?_⟩
  by_cases ht : 0 < goal.target_amount
  · simp only [savings_goal_response, calculate_savings_goal_progress, gt_iff_lt, ht,
      ite_true, min_comm]
  · simp only [savings_goal_response, calculate_savings_goal_progress, gt_iff_lt, ht,
      ite_false]
    have : min (0 : ℚ) 100 = 0 := by norm_num
    rw [this]
    simpa using pyRound_int 1 0

/-! ## Account balance (`routes/finance.py`) -/

/-- A stored finance account document (fields used by the balance
read). -/
structure Account where
  id : String
  user_id : String
  starting_balance : ℚ := 0
  deriving DecidableEq, Repr

/-- `calculate_account_balance` (finance.py lines 499-507):
`starting_balance + sum of the amounts of the transactions referencing
the account`; `starting_balance` is an optional parameter defaulting to
`0.0`. -/
def calculate_account_balance (txs : List TxM) (account_id : String)
    (starting_balance : ℚ := 0) : ℚ :=
  starting_balance + ((txs.filter fun tx => tx.account_id == account_id).map TxM.amount).sum

/-- The fields of an `AccountResponse` relevant to the balance claim. -/
structure AccountRead where
  starting_balance : ℚ
  balance : ℚ
  deriving DecidableEq, Repr

/-- `get_account` (finance.py lines 73-83): looks the account up and
reports `balance = calculate_account_balance(account_id)` — the stored
`starting_balance` is NOT passed, so the default `0.0` is used (the
same call shape is used by `list_accounts` at line 67 and
`update_account` at line 100). -/
def get_account (accounts : List Account) (txs : List TxM)
    (account_id user_id : String) : Option AccountRead :=
  match accounts.find? fun a => a.id == account_id && a.user_id == user_id with
  | none => none
  | some account =>
      some { starting_balance := account.starting_balance
             balance := calculate_account_balance txs account_id }

/-- An account with starting balance 100. -/
def exAccount : Account := { id := "a", user_id := "u", starting_balance := 100 }

/-- A transaction of +10 on account `"a"`. -/
def exTxDeposit : TxM :=
  { id := "t4", date := "2024-06-08", amount := 10, account_id := "a" }

/-- C9: evaluation at the failing input. The documented semantics
(docstring of `calculate_account_balance`, `models/finance.py` line 48)
is `balance = starting_balance + sum(transactions)`, which here is
`100 + 10 = 110`; but every read calls `calculate_account_balance`
without the stored starting balance, so the reported balance is 10. -/
theorem account_balance_read_eval :
    get_account [exAccount] [exTxDeposit] "a" "u" =
      some { starting_balance := 100, balance := 10 }
    ∧ calculate_account_balance [exTxDeposit] "a" exAccount.starting_balance = 110
    ∧ (get_account [exAccount] [exTxDeposit] "a" "u").map AccountRead.balance ≠
        some (calculate_account_balance [exTxDeposit] "a" exAccount.starting_balance) := by
  have hget : get_account [exAccount] [exTxDeposit] "a" "u" =
      some { starting_balance := 100, balance := 10 } := by
    simp only [get_account, calculate_account_balance, exAccount, exTxDeposit]
    norm_num [List.find?]
  have hdoc : calculate_account_balance [exTxDeposit] "a" exAccount.starting_balance = 110 := by
    simp only [calculate_account_balance, exAccount, exTxDeposit]
    norm_num
  refine ⟨hget, hdoc, ?_⟩
  rw [hget, hdoc]
  norm_num

/-! ## Expected item writes (`routes/budget.py`) -/

/-- Replace the first element satisfying `p` (Mongo `update_one`). -/
def updateFirst (p : α → Bool) (f : α → α) : List α → List α
  | [] => []
  | x :: xs => if p x then f x :: xs else x :: updateFirst p f xs

/-- `ExpectedItemCreate` payload. -/
structure ExpectedItemCreateData where
  name : String
  amount : ℚ
  item_type : ItemType
  frequency : Frequency
  category_id : Option String := none
  month : Option String := none
  deriving Repr

/-- `ExpectedItemUpdate` payload (all fields optional; `None` fields are
dropped from the `$set` document). -/
structure ExpectedItemUpdateData where
  name : Option String := none
  amount : Option ℚ := none
  item_type : Option ItemType := none
  frequency : Option Frequency := none
  category_id : Option String := none
  month : Option String := none
  deriving Repr

/-- `create_expected_item` (budget.py lines 236-252): the stored
document's amount is `abs(data.amount)` ("Always store positive"). -/
def create_expected_item (store : List ExpectedItem) (item_id : String)
    (d : ExpectedItemCreateData) : List ExpectedItem :=
  store ++ [{ id := item_id, name := d.name, amount := |d.amount|,
              item_type := d.item_type, frequency := d.frequency,
              category_id := d.category_id, month := d.month }]

/-- The `$set` document applied by `update_expected_item` (budget.py
lines 309-314): provided fields overwrite, and a provided amount is
replaced by `abs(update_data["amount"])` first. -/
def applyExpectedItemUpdate (d : ExpectedItemUpdateData) (it : ExpectedItem) :
    ExpectedItem :=
  { it with
    name := d.name.getD it.name
    amount := match d.amount with | some a => |a| | none => it.amount
    item_type := d.item_type.getD it.item_type
    frequency := d.frequency.getD it.frequency
    category_id := match d.category_id with | some c => some c | none => it.category_id
    month := match d.month with | some m => some m | none => it.month }

/-- `update_expected_item`: 404 (no write) when no item carries the id,
otherwise `update_one` on the first matching document. -/
def update_expected_item (store : List ExpectedItem) (item_id : String)
    (d : ExpectedItemUpdateData) : List ExpectedItem :=
  updateFirst (fun it => it.id == item_id) (applyExpectedItemUpdate d) store

/-- A write operation on the `expected_items` collection. -/
inductive BudgetOp
  | create (item_id : String) (d : ExpectedItemCreateData)
  | update (item_id : String) (d : ExpectedItemUpdateData)

/-- Dispatch one write operation. -/
def applyBudgetOp (store : List ExpectedItem) : BudgetOp → List ExpectedItem
  | .create item_id d => create_expected_item store item_id d
  | .update item_id d => update_expected_item store item_id d

theorem updateFirst_mem {p : α → Bool} {f : α → α} :
    ∀ (l : List α), ∀ x ∈ updateFirst p f l, x ∈ l ∨ ∃ y ∈ l, x = f y := by
  intro l
  induction l with
  | nil => intro x hx; simp [updateFirst] at hx
  | cons a as ih =>
    intro x hx
    by_cases hp : p a
    · simp only [updateFirst, hp, ite_true, List.mem_cons] at hx
      rcases hx with h | h
      · exact Or.inr ⟨a, List.mem_cons_self _ _, h⟩
      · exact Or.inl (List.mem_cons_of_mem _ h)
    · simp only [updateFirst, hp, ite_false, List.mem_cons] at hx
      rcases List.mem_cons.mp hx with h | h
      · exact Or.inl (h ▸ List.mem_cons_self _ _)
      · rcases ih x h with h2 | ⟨y, hy, hxy⟩
        · exact Or.inl (List.mem_cons_of_mem _ h2)
        · exact Or.inr ⟨y, List.mem_cons_of_mem _ hy, hxy⟩

theorem applyBudgetOp_nonneg {store : List ExpectedItem} {op : BudgetOp}
    (h : ∀ it ∈ store, 0 ≤ it.amount) :
    ∀ it ∈ applyBudgetOp store op, 0 ≤ it.amount := by
  intro it hit
  cases op with
  | create item_id d =>
    simp only [applyBudgetOp, create_expected_item, List.mem_append,
      List.mem_singleton] at hit
    rcases hit with h1 | h1
    · exact h it h1
    · rw [h1]; exact abs_nonneg _
  | update item_id d =>
    simp only [applyBudgetOp, update_expected_item] at hit
    rcases updateFirst_mem store it hit with h1 | ⟨y, hy, hxy⟩
    · exact h it h1
    · rw [hxy]
      cases hd : d.amount with
      | none => simpa [applyExpectedItemUpdate, hd] using h y hy
      | some a => simp [applyExpectedItemUpdate, hd, abs_nonneg]

/-- C10: starting from any store whose expected items all have
non-negative amounts (in particular the empty store), any sequence of
create/update operations preserves that every stored expected item's
amount is non-negative, since both write paths apply `abs` to the
submitted amount. -/
theorem expected_item_amounts_nonneg (init : List ExpectedItem) (ops : List BudgetOp)
    (hinit : ∀ it ∈ init, 0 ≤ it.amount) :
    ∀ it ∈ ops.foldl applyBudgetOp init, 0 ≤ it.amount := by
  induction ops generalizing init with
  | nil => simpa using hinit
  | cons op rest ih =>
    simpa [List.foldl_cons] using ih (applyBudgetOp init op) (applyBudgetOp_nonneg hinit)

/-- Witness for C10: a create with amount -80 followed by an update to
amount -25, starting from the empty store, leaves only non-negative
stored amounts. -/
theorem expected_item_amounts_nonneg_witness :
    (([BudgetOp.create "i9"
        { name := "Feed", amount := -80, item_type := .expense, frequency := .monthly },
      BudgetOp.update "i9" { amount := some (-25) }].foldl applyBudgetOp []).all
        fun it => decide (0 ≤ it.amount)) = true := by
  rw [List.all_eq_true]
  intro it hit
  rw [decide_eq_true_eq]
  exact expected_item_amounts_nonneg []
    [BudgetOp.create "i9"
        { name := "Feed", amount := -80, item_type := .expense, frequency := .monthly },
      BudgetOp.update "i9" { amount := some (-25) }]
    (by simp) it hit

/-! ## Project deletion (`routes/projects.py`) -/

/-- A stored project document (fields used by deletion and the public
routes). -/
structure ProjectDoc where
  id : String
  user_id : String
  is_public : Bool := false
  deriving DecidableEq, Repr

/-- A child record that references a project. -/
structure ChildDoc where
  id : String
  project_id : String
  deriving DecidableEq, Repr

/-- The collections touched (or claimed to be touched) by
`delete_project`. -/
structure AppDB where
  projects : List ProjectDoc := []
  diary_entries : List ChildDoc := []
  gallery_folders : List ChildDoc := []
  gallery_images : List ChildDoc := []
  blog_entries : List ChildDoc := []
  library_folders : List ChildDoc := []
  library_entries : List ChildDoc := []
  tasks : List ChildDoc := []
  startup_tasks : List ChildDoc := []
  shutdown_tasks : List ChildDoc := []
  checklists : List ChildDoc := []
  checklist_items : List ChildDoc := []
  finance_accounts : List ChildDoc := []
  finance_categories : List ChildDoc := []
  finance_transactions : List ChildDoc := []
  finance_recurring : List ChildDoc := []
  finance_savings_goals : List ChildDoc := []
  deriving DecidableEq, Repr

/-- `delete_project` (projects.py lines 99-127): 404 when the project is
not owned by the caller; otherwise `delete_many({"project_id": ...})` on
the nine listed child collections and `delete_one` on `projects`.  No
other collection is written. -/
def delete_project (db : AppDB) (project_id user_id : String) : Option AppDB :=
  match db.projects.find? fun p => p.id == project_id && p.user_id == user_id with
  | none => none
  | some _ =>
      some { db with
        diary_entries := db.diary_entries.filter fun c => !(c.project_id == project_id)
        gallery_folders := db.gallery_folders.filter fun c => !(c.project_id == project_id)
        gallery_images := db.gallery_images.filter fun c => !(c.project_id == project_id)
        blog_entries := db.blog_entries.filter fun c => !(c.project_id == project_id)
        library_folders := db.library_folders.filter fun c => !(c.project_id == project_id)
        library_entries := db.library_entries.filter fun c => !(c.project_id == project_id)
        tasks := db.tasks.filter fun c => !(c.project_id == project_id)
        startup_tasks := db.startup_tasks.filter fun c => !(c.project_id == project_id)
        shutdown_tasks := db.shutdown_tasks.filter fun c => !(c.project_id == project_id)
        projects := db.projects.eraseP fun p => p.id == project_id }

/-- A database holding one project `"p"` of user `"u"` with one
checklist attached to it. -/
def exDeleteDB : AppDB :=
  { projects := [{ id := "p", user_id := "u" }]
    checklists := [{ id := "c", project_id := "p" }] }

/-- C5 counterexample: deleting project `"p"` succeeds but its checklist
is still stored afterwards — `delete_project` never touches the
`checklists` collection, so the claim's "additionally removes its
checklists" is false. -/
theorem delete_project_keeps_checklists_counterexample :
    (delete_project exDeleteDB "p" "u").map AppDB.checklists =
      some [{ id := "c", project_id := "p" }]
    ∧ (delete_project exDeleteDB "p" "u").map AppDB.checklists ≠ some [] := by
  refine ⟨by decide, by decide⟩

/-- C5 amended: deleting a project removes every diary entry, gallery
folder, gallery image, blog entry, library folder, library entry, task
and startup/shutdown routine task belonging to that project; its
checklists, checklist items and finance records (accounts, categories,
transactions, recurring, savings goals) are all left unchanged. -/
theorem delete_project_frame (db : AppDB) (project_id user_id : String)
    (h : (db.projects.find? fun p =>
      p.id == project_id && p.user_id == user_id).isSome) :
    ∃ db2, delete_project db project_id user_id = some db2
      ∧ db2.diary_entries = db.diary_entries.filter (fun c => !(c.project_id == project_id))
      ∧ db2.gallery_folders = db.gallery_folders.filter (fun c => !(c.project_id == project_id))
      ∧ db2.gallery_images = db.gallery_images.filter (fun c => !(c.project_id == project_id))
      ∧ db2.blog_entries = db.blog_entries.filter (fun c => !(c.project_id == project_id))
      ∧ db2.library_folders = db.library_folders.filter (fun c => !(c.project_id == project_id))
      ∧ db2.library_entries = db.library_entries.filter (fun c => !(c.project_id == project_id))
      ∧ db2.tasks = db.tasks.filter (fun c => !(c.project_id == project_id))
      ∧ db2.startup_tasks = db.startup_tasks.filter (fun c => !(c.project_id == project_id))
      ∧ db2.shutdown_tasks = db.shutdown_tasks.filter (fun c => !(c.project_id == project_id))
      ∧ db2.checklists = db.checklists
      ∧ db2.checklist_items = db.checklist_items
      ∧ db2.finance_accounts = db.finance_accounts
      ∧ db2.finance_categories = db.finance_categories
      ∧ db2.finance_transactions = db.finance_transactions
      ∧ db2.finance_recurring = db.finance_recurring
      ∧ db2.finance_savings_goals = db.finance_savings_goals := by
  rw [Option.isSome_iff_exists] at h
  obtain ⟨proj, hp⟩ := h
  refine ⟨{ db with
      diary_entries := db.diary_entries.filter fun c => !(c.project_id == project_id)
      gallery_folders := db.gallery_folders.filter fun c => !(c.project_id == project_id)
      gallery_images := db.gallery_images.filter fun c => !(c.project_id == project_id)
      blog_entries := db.blog_entries.filter fun c => !(c.project_id == project_id)
      library_folders := db.library_folders.filter fun c => !(c.project_id == project_id)
      library_entries := db.library_entries.filter fun c => !(c.project_id == project_id)
      tasks := db.tasks.filter fun c => !(c.project_id == project_id)
      startup_tasks := db.startup_tasks.filter fun c => !(c.project_id == project_id)
      shutdown_tasks := db.shutdown_tasks.filter fun c => !(c.project_id == project_id)
      projects := db.projects.eraseP fun p => p.id == project_id }, ?_,
    rfl, rfl, rfl, rfl, rfl, rfl, rfl, rfl, rfl, rfl, rfl, rfl, rfl, rfl, rfl, rfl⟩
  simp [delete_project, hp]

/-- Witness for C5 at the concrete one-project database. -/
theorem delete_project_frame_witness :
    ((exDeleteDB.projects.find? fun p => p.id == "p" && p.user_id == "u").isSome)
    ∧ ∃ db2, delete_project exDeleteDB "p" "u" = some db2
      ∧ db2.diary_entries = exDeleteDB.diary_entries.filter (fun c => !(c.project_id == "p"))
      ∧ db2.gallery_folders = exDeleteDB.gallery_folders.filter (fun c => !(c.project_id == "p"))
      ∧ db2.gallery_images = exDeleteDB.gallery_images.filter (fun c => !(c.project_id == "p"))
      ∧ db2.blog_entries = exDeleteDB.blog_entries.filter (fun c => !(c.project_id == "p"))
      ∧ db2.library_folders = exDeleteDB.library_folders.filter (fun c => !(c.project_id == "p"))
      ∧ db2.library_entries = exDeleteDB.library_entries.filter (fun c => !(c.project_id == "p"))
      ∧ db2.tasks = exDeleteDB.tasks.filter (fun c => !(c.project_id == "p"))
      ∧ db2.startup_tasks = exDeleteDB.startup_tasks.filter (fun c => !(c.project_id == "p"))
      ∧ db2.shutdown_tasks = exDeleteDB.shutdown_tasks.filter (fun c => !(c.project_id == "p"))
      ∧ db2.checklists = exDeleteDB.checklists
      ∧ db2.checklist_items = exDeleteDB.checklist_items
      ∧ db2.finance_accounts = exDeleteDB.finance_accounts
      ∧ db2.finance_categories = exDeleteDB.finance_categories
      ∧ db2.finance_transactions = exDeleteDB.finance_transactions
      ∧ db2.finance_recurring = exDeleteDB.finance_recurring
      ∧ db2.finance_savings_goals = exDeleteDB.finance_savings_goals :=
  ⟨by decide, delete_project_frame exDeleteDB "p" "u" (by decide)⟩

/-! ## Public blog routes (`routes/public.py`) -/

/-- A stored blog entry document (fields used by the public routes;
`views` defaults to 0 as in `entry.get("views", 0)`). -/
structure BlogEntry where
  id : String
  project_id : String
  is_public : Bool := false
  views : ℕ := 0
  deriving DecidableEq, Repr

/-- The database state seen by the public blog routes. -/
structure PublicDB where
  projects : List ProjectDoc := []
  blog_entries : List BlogEntry := []
  deriving DecidableEq, Repr

/-- `update_one({"id": entry_id}, {"$inc": {"views": 1}})`: increment
the views of the first entry carrying the id. -/
def incViewsFirst (entries : List BlogEntry) (entry_id : String) : List BlogEntry :=
  updateFirst (fun e => e.id == entry_id) (fun e => { e with views := e.views + 1 }) entries

/-- `get_public_blog_entry` (public.py lines 134-147): 404 unless the
project exists AND is public; 404 unless the entry exists in that
project and is public; otherwise `$inc` the stored views and answer with
`views + 1`.  The returned pair is (database after the write, entry of
the response). -/
def get_public_blog_entry (db : PublicDB) (project_id entry_id : String) :
    Except String (PublicDB × BlogEntry) :=
  match db.projects.find? fun p => p.id == project_id && p.is_public with
  | none => .error "Project not found"
  | some _ =>
    match db.blog_entries.find? fun e =>
        e.id == entry_id && e.project_id == project_id && e.is_public with
    | none => .error "Blog entry not found"
    | some entry =>
        .ok ({ db with blog_entries := incViewsFirst db.blog_entries entry_id },
          { entry with views := entry.views + 1 })

/-- `list_public_blog_entries` (public.py lines 104-131, `search=None`):
404 unless the project exists and is public, otherwise the public
entries of the project.  The route performs no write, so the database
comes back unchanged (the Mongo `created_at` sort only permutes the
response and is omitted). -/
def list_public_blog_entries (db : PublicDB) (project_id : String) :
    Except String (PublicDB × List BlogEntry) :=
  match db.projects.find? fun p => p.id == project_id && p.is_public with
  | none => .error "Project not found"
  | some _ =>
      .ok (db, db.blog_entries.filter fun e => e.project_id == project_id && e.is_public)

/-- A private project `"p"` holding a public blog entry `"b"` with 0
views. -/
def exPrivateProjectDB : PublicDB :=
  { projects := [{ id := "p", user_id := "u", is_public := false }]
    blog_entries := [{ id := "b", project_id := "p", is_public := true, views := 0 }] }

/-- The same database with the project public instead. -/
def exPublicProjectDB : PublicDB :=
  { projects := [{ id := "p", user_id := "u", is_public := true }]
    blog_entries := [{ id := "b", project_id := "p", is_public := true, views := 0 }] }

/-- C6 counterexample: for a project created with `is_public=false` and
a blog entry with `is_public=true`, the unauthenticated detail GET does
NOT succeed — both public endpoints 404 on the project lookup (`find_one
{"id": ..., "is_public": True}`) and the stored views stay 0. -/
theorem public_blog_private_project_counterexample :
    get_public_blog_entry exPrivateProjectDB "p" "b" = .error "Project not found"
    ∧ list_public_blog_entries exPrivateProjectDB "p" = .error "Project not found"
    ∧ ((exPrivateProjectDB.blog_entries.find? fun e => e.id == "b").map BlogEntry.views)
        = some 0 := by
  refine ⟨by rfl, by rfl, by decide⟩

/-- C6 amended: for a PUBLIC project containing a blog entry created
with `is_public=true`, the unauthenticated GET of the entry's detail
endpoint succeeds and increments the entry's views (from 0 to 1 when it
had 0), while a public GET of the project-level blog list endpoint
leaves the database — hence every views counter — unchanged: only the
detail endpoint increments. -/
theorem public_blog_entry_views_increment (db : PublicDB)
    (project_id entry_id : String) (proj : ProjectDoc) (entry : BlogEntry)
    (hproj : (db.projects.find? fun p => p.id == project_id && p.is_public) = some proj)
    (hentry : (db.blog_entries.find? fun e =>
      e.id == entry_id && e.project_id == project_id && e.is_public) = some entry) :
    (get_public_blog_entry db project_id entry_id =
      .ok ({ db with blog_entries := incViewsFirst db.blog_entries entry_id },
        { entry with views := entry.views + 1 }))
    ∧ list_public_blog_entries db project_id =
        .ok (db, db.blog_entries.filter fun e =>
          e.project_id == project_id && e.is_public) := by
  constructor
  · simp [get_public_blog_entry, hproj, hentry]
  · simp [list_public_blog_entries, hproj]

/-- Witness for C6 at the concrete public-project database: the detail
GET bumps the stored entry from 0 to 1 views. -/
theorem public_blog_entry_views_increment_witness :
    ((exPublicProjectDB.projects.find? fun p => p.id == "p" && p.is_public) =
      some { id := "p", user_id := "u", is_public := true })
    ∧ ((get_public_blog_entry exPublicProjectDB "p" "b" =
        .ok ({ exPublicProjectDB with
            blog_entries := incViewsFirst exPublicProjectDB.blog_entries "b" },
          { id := "b", project_id := "p", is_public := true, views := 0 + 1 }))
      ∧ list_public_blog_entries exPublicProjectDB "p" =
          .ok (exPublicProjectDB, exPublicProjectDB.blog_entries.filter fun e =>
            e.project_id == "p" && e.is_public)) :=
  ⟨by decide,
    public_blog_entry_views_increment exPublicProjectDB "p" "b"
      { id := "p", user_id := "u", is_public := true }
      { id := "b", project_id := "p", is_public := true, views := 0 }
      (by decide) (by decide)⟩

/-! ## CSV amount parsing (`routes/import_transactions.py`) -/

/-- The currency symbols of the regex class `[€$£¥₹\s]`. -/
def currencyChars : List Char := ['€', '$', '£', '¥', '₹']

/-- `amount_str.strip()` followed by `re.sub(r'[€$£¥₹\s]', '', ...)`:
the net effect removes every currency symbol and whitespace character
anywhere in the string. -/
def stripAmount (s : String) : List Char :=
  s.toList.filter fun c => !(currencyChars.contains c || c.isWhitespace)

/-- Python `str.rfind`: highest index of the character, `-1` when
absent. -/
def rfindIdx : List Char → Char → ℤ
  | [], _ => -1
  | x :: rest, c =>
      let r := rfindIdx rest c
      if r ≥ 0 then r + 1 else if x == c then 0 else -1

/-- The `-?` of the regex below: drop one optional leading minus
sign. -/
def stripLeadingMinus : List Char → List Char
  | '-' :: rest => rest
  | cs => cs

/-- The regex `^-?[\d.]*,\d{2}$` of import_transactions.py line 64:
optional minus, then digits/dots, then a comma followed by exactly two
digits at the end of the string (since `[\d.]` does not match a comma,
the matched prefix is exactly the run of digits/dots before the first
comma). -/
def matchesCommaDecimalRe (cs : List Char) : Bool :=
  match (stripLeadingMinus cs).dropWhile (fun c => c.isDigit || c == '.') with
  | [',', d1, d2] => d1.isDigit && d2.isDigit
  | _ => false

/-- Decimal digits to a natural number. -/
def digitsToNat (l : List Char) : ℕ :=
  l.foldl (fun a c => a * 10 + (c.toNat - '0'.toNat)) 0

/-- Integer mantissa and number of decimal places of a plain decimal
literal: optional sign, digit run, optional `'.'` and digit run, with
at least one digit overall (the shapes `float()` receives here). -/
def parseFloatCore (cs : List Char) : Option (ℤ × ℕ) :=
  let sign : ℤ := match cs with | '-' :: _ => -1 | _ => 1
  let cs2 := match cs with | '-' :: rest => rest | '+' :: rest => rest | _ => cs
  let intPart := cs2.takeWhile Char.isDigit
  match cs2.drop intPart.length with
  | [] => if intPart.isEmpty then none else some (sign * digitsToNat intPart, 0)
  | '.' :: frac =>
      if frac.all Char.isDigit && !(intPart.isEmpty && frac.isEmpty) then
        some (sign * (digitsToNat intPart * 10 ^ frac.length + digitsToNat frac),
          frac.length)
      else none
  | _ => none

/-- The rational value of a parsed mantissa/decimals pair. -/
def floatOfParts (p : ℤ × ℕ) : ℚ := (p.1 : ℚ) / (10 : ℚ) ^ p.2

/-- Python `float()` on the decimal literals produced by the separator
normalization (exponent and special-value syntax never arises there). -/
def pyFloat (cs : List Char) : Option ℚ := (parseFloatCore cs).map floatOfParts

/-- The separator normalization of `parse_amount`
(import_transactions.py lines 50-67): with both separators present the
one appearing last (by `rfind`) is the decimal separator; with only a
comma present the regex heuristic decides; `str.replace` is modelled by
`filter` / `map`. -/
def normalizeAmount (s : String) : List Char :=
  let cs := stripAmount s
  if cs.contains ',' && cs.contains '.' then
    if rfindIdx cs ',' > rfindIdx cs '.' then
      (cs.filter fun c => !(c == '.')).map fun c => if c == ',' then '.' else c
    else
      cs.filter fun c => !(c == ',')
  else if cs.contains ',' then
    if matchesCommaDecimalRe cs then cs.map fun c => if c == ',' then '.' else c
    else cs.filter fun c => !(c == ',')
  else cs

/-- `parse_amount` (import_transactions.py lines 47-69). -/
def parse_amount (s : String) : Option ℚ := pyFloat (normalizeAmount s)

/-- Spec-side reading: the separator character appearing last in the
string (the first of the reversed string). -/
def lastSeparator (cs : List Char) : Option Char :=
  cs.reverse.find? fun x => x == ',' || x == '.'

/-- Spec-side reading: remove every thousands separator and turn every
decimal separator into `'.'`. -/
def normalizeWith (dec thou : Char) (cs : List Char) : List Char :=
  (cs.filter fun c => !(c == thou)).map fun c => if c == dec then '.' else c

/-- Spec-side reading of the claim's comma heuristic: the comma is
followed by exactly two digits at the end of the string. -/
def commaFollowedByTwoDigitsAtEnd (cs : List Char) : Bool :=
  match cs.reverse with
  | d2 :: d1 :: ',' :: _ => d1.isDigit && d2.isDigit
  | _ => false

theorem rfindIdx_append_singleton (l : List Char) (x c : Char) :
    rfindIdx (l ++ [x]) c = if x == c then (l.length : ℤ) else rfindIdx l c := by
  induction l with
  | nil => by_cases h : x == c <;> simp [rfindIdx, h]
  | cons y l ih =>
    by_cases hx : x == c
    · simp only [List.cons_append, rfindIdx, List.append_eq, ih, hx, if_true]
      split
      · simp only [List.length_cons]; push_cast; ring
      · exact absurd (Int.natCast_nonneg l.length) (by assumption)
    · simp [List.cons_append, rfindIdx, List.append_eq, ih, hx]

theorem rfindIdx_lt_length (l : List Char) (c : Char) :
    rfindIdx l c < (l.length : ℤ) := by
  induction l with
  | nil => simp [rfindIdx]
  | cons y l ih =>
    simp only [rfindIdx, List.length_cons]
    by_cases h : rfindIdx l c ≥ 0
    · rw [if_pos h]; push_cast; omega
    · rw [if_neg h]
      by_cases hy : y == c <;> simp [hy] <;> omega

theorem lastSeparator_last (cs : List Char) :
    (lastSeparator cs = some ',' → rfindIdx cs '.' < rfindIdx cs ',')
    ∧ (lastSeparator cs = some '.' → rfindIdx cs ',' < rfindIdx cs '.') := by
  induction cs using List.reverseRecOn with
  | nil => simp [lastSeparator, List.find?]
  | append_singleton l x ih =>
    have hrev : (l ++ [x]).reverse = x :: l.reverse := by
      simp [List.reverse_append]
    by_cases hxc : x == ','
    · have hxceq : x = ',' := beq_iff_eq.mp hxc
      subst hxceq
      constructor
      · intro _
        rw [rfindIdx_append_singleton, rfindIdx_append_singleton]
        norm_num
        exact rfindIdx_lt_length l '.'
      · intro hfind
        exfalso
        rw [lastSeparator, hrev] at hfind
        simp [List.find?] at hfind
    · by_cases hxd : x == '.'
      · have hxdeq : x = '.' := beq_iff_eq.mp hxd
        subst hxdeq
        constructor
        · intro hfind
          exfalso
          rw [lastSeparator, hrev] at hfind
          simp [List.find?] at hfind
        · intro _
          rw [rfindIdx_append_singleton, rfindIdx_append_singleton]
          norm_num
          exact rfindIdx_lt_length l ','
      · have hpred : (x == ',' || x == '.') = false := by simp [hxc, hxd]
        have hls : lastSeparator (l ++ [x]) = lastSeparator l := by
          rw [lastSeparator, hrev, lastSeparator]
          simp [List.find?, hpred]
        rw [hls, rfindIdx_append_singleton, rfindIdx_append_singleton]
        simp only [hxc, hxd, if_false]
        exact ih

theorem map_if_dot_id (l : List Char) :
    (l.map fun c => if c == '.' then '.' else c) = l := by
  refine List.map_id'' ?_ l
  intro c
  by_cases h : c == '.'
  · simp only [h, if_true]
    exact (beq_iff_eq.mp h).symm
  · simp [h]

theorem filter_ne_dot_of_not_contains (l : List Char) (h : l.contains '.' = false) :
    (l.filter fun c => !(c == '.')) = l := by
  apply List.filter_eq_self.mpr
  intro a ha
  have hdot : '.' ∉ l := by
    intro hm
    have htrue : l.contains '.' = true := List.elem_iff.mpr hm
    rw [htrue] at h
    exact absurd h (by decide)
  have : a ≠ '.' := fun hae => hdot (hae ▸ ha)
  simp [this]

theorem parse_amount_eval (s : String) (l : List Char) (p : ℤ × ℕ)
    (h1 : normalizeAmount s = l) (h2 : parseFloatCore l = some p) :
    parse_amount s = some (floatOfParts p) := by
  unfold parse_amount pyFloat
  rw [h1, h2, Option.map_some']

theorem matchesCommaDecimalRe_reverse (cs2 : List Char)
    (h : (match cs2.dropWhile (fun c => c.isDigit || c == '.') with
      | [',', d1, d2] => d1.isDigit && d2.isDigit
      | _ => false) = true) :
    ∃ d1 d2 t, cs2.reverse = d2 :: d1 :: ',' :: t ∧ (d1.isDigit && d2.isDigit) = true := by
  split at h
  · next d1 d2 heq =>
    refine ⟨d1, d2, (cs2.takeWhile (fun c => c.isDigit || c == '.')).reverse, ?_, h⟩
    conv_lhs => rw [← List.takeWhile_append_dropWhile
      (fun c => c.isDigit || c == '.') cs2, heq]
    simp
  · exact absurd h (by decide)

theorem stripLeadingMinus_spec (cs : List Char) :
    cs = stripLeadingMinus cs ∨ cs = '-' :: stripLeadingMinus cs := by
  unfold stripLeadingMinus
  split
  · right; rfl
  · left; rfl

/-- C7 (amended): the concrete parses `"1,234.56" → 1234.56`,
`"1.234,56" → 1234.56`, `"-50,00" → -50.00`, `"€ 1.234,56" → 1234.56`
hold; with both separators present (currency symbols and whitespace
stripped first) the separator appearing last is the decimal separator;
with only a comma present, the comma is the decimal separator exactly
when the stripped string matches `^-?[\d.]*,\d{2}$` — an optional minus,
then digits/dots, then the comma and exactly two digits at the end —
and any such match indeed ends in a comma followed by exactly two
digits. -/
theorem parse_amount_separator_spec :
    (parse_amount "1,234.56" = some ((1234.56 : ℚ))
      ∧ parse_amount "1.234,56" = some ((1234.56 : ℚ))
      ∧ parse_amount "-50,00" = some ((-50 : ℚ))
      ∧ parse_amount "€ 1.234,56" = some ((1234.56 : ℚ)))
    ∧ (∀ s : String,
        (stripAmount s).contains ',' = true →
        (stripAmount s).contains '.' = true →
          (lastSeparator (stripAmount s) = some ',' →
              parse_amount s = pyFloat (normalizeWith ',' '.' (stripAmount s)))
          ∧ (lastSeparator (stripAmount s) = some '.' →
              parse_amount s = pyFloat (normalizeWith '.' ',' (stripAmount s))))
    ∧ (∀ s : String,
        (stripAmount s).contains ',' = true →
        (stripAmount s).contains '.' = false →
          parse_amount s = pyFloat
            (if matchesCommaDecimalRe (stripAmount s)
             then normalizeWith ',' '.' (stripAmount s)
             else normalizeWith '.' ',' (stripAmount s)))
    ∧ (∀ cs : List Char, matchesCommaDecimalRe cs = true →
        commaFollowedByTwoDigitsAtEnd cs = true) := by
  refine ⟨⟨?_, ?_, ?_, ?_⟩, ?_, ?_, ?_⟩
  · rw [parse_amount_eval "1,234.56" ['1','2','3','4','.','5','6'] (123456, 2)
      (by decide) (by decide)]
    simp [floatOfParts]
    norm_num
  · rw [parse_amount_eval "1.234,56" ['1','2','3','4','.','5','6'] (123456, 2)
      (by decide) (by decide)]
    simp [floatOfParts]
    norm_num
  · rw [parse_amount_eval "-50,00" ['-','5','0','.','0','0'] (-5000, 2)
      (by decide) (by decide)]
    simp [floatOfParts]
    norm_num
  · rw [parse_amount_eval "€ 1.234,56" ['1','2','3','4','.','5','6'] (123456, 2)
      (by decide) (by decide)]
    simp [floatOfParts]
    norm_num
  · intro s hc hd
    have hmc : ',' ∈ stripAmount s := List.elem_iff.mp hc
    have hmd : '.' ∈ stripAmount s := List.elem_iff.mp hd
    constructor
    · intro hfind
      have hlt := (lastSeparator_last (stripAmount s)).1 hfind
      unfold parse_amount
      congr 1
      simp only [normalizeAmount, normalizeWith]
      simp [hmc, hmd, hlt]
    · intro hfind
      have hlt := (lastSeparator_last (stripAmount s)).2 hfind
      have hnlt : ¬(rfindIdx (stripAmount s) '.' < rfindIdx (stripAmount s) ',') :=
        lt_asymm hlt
      unfold parse_amount
      congr 1
      simp only [normalizeAmount, normalizeWith]
      rw [map_if_dot_id]
      simp [hmc, hmd, hnlt]
  · intro s hc hd
    have hmc : ',' ∈ stripAmount s := List.elem_iff.mp hc
    have hmd : '.' ∉ stripAmount s := by
      intro hm
      have htrue : (stripAmount s).contains '.' = true := List.elem_iff.mpr hm
      rw [htrue] at hd
      exact absurd hd (by decide)
    unfold parse_amount
    congr 1
    by_cases hre : matchesCommaDecimalRe (stripAmount s)
    · rw [if_pos hre]
      simp only [normalizeAmount, normalizeWith]
      rw [filter_ne_dot_of_not_contains _ hd]
      simp [hmc, hmd, hre]
    · rw [if_neg hre]
      simp only [normalizeAmount, normalizeWith]
      rw [map_if_dot_id]
      simp [hmc, hmd, hre]
  · intro cs h
    have h2 : (match (stripLeadingMinus cs).dropWhile (fun c => c.isDigit || c == '.') with
        | [',', d1, d2] => d1.isDigit && d2.isDigit
        | _ => false) = true := by
      simpa [matchesCommaDecimalRe] using h
    obtain ⟨d1, d2, t, hrev, hdig⟩ := matchesCommaDecimalRe_reverse _ h2
    rcases stripLeadingMinus_spec cs with hcs | hcs
    · have hrv : cs.reverse = d2 :: d1 :: ',' :: t := by rw [hcs]; exact hrev
      simp [commaFollowedByTwoDigitsAtEnd, hrv, hdig]
    · have hrv : cs.reverse = d2 :: d1 :: ',' :: (t ++ ['-']) := by
        rw [hcs, List.reverse_cons, hrev]
        simp
      simp [commaFollowedByTwoDigitsAtEnd, hrv, hdig]

/-- C7 counterexample: in the stripped input `"+5,12"` only a comma is
present and it IS followed by exactly two digits at the end, yet
`parse_amount` treats it as a thousands separator and returns 512
(the regex additionally requires the prefix before the comma to be
digits/dots after an optional minus, and `'+'` fails that), while the
claim's rule demands the decimal reading 5.12. -/
theorem parse_amount_comma_heuristic_counterexample :
    commaFollowedByTwoDigitsAtEnd (stripAmount "+5,12") = true
    ∧ (stripAmount "+5,12").contains ',' = true
    ∧ (stripAmount "+5,12").contains '.' = false
    ∧ parse_amount "+5,12" = some ((512 : ℚ))
    ∧ pyFloat (normalizeWith ',' '.' (stripAmount "+5,12")) = some ((5.12 : ℚ))
    ∧ parse_amount "+5,12" ≠ pyFloat (normalizeWith ',' '.' (stripAmount "+5,12")) := by
  have h4 : parse_amount "+5,12" = some ((512 : ℚ)) := by
    rw [parse_amount_eval "+5,12" ['+','5','1','2'] (512, 0) (by decide) (by decide)]
    simp [floatOfParts]
  have h5 : pyFloat (normalizeWith ',' '.' (stripAmount "+5,12")) = some ((5.12 : ℚ)) := by
    have hl : normalizeWith ',' '.' (stripAmount "+5,12") = ['+','5','.','1','2'] := by
      decide
    have hp : parseFloatCore ['+','5','.','1','2'] = some (512, 2) := by decide
    rw [pyFloat, hl, hp, Option.map_some']
    simp [floatOfParts]
    norm_num
  refine ⟨by decide, by decide, by decide, h4, h5, ?_⟩
  rw [h4, h5]
  simp only [ne_eq, Option.some.injEq]
  norm_num

/-- Witness for C7 at concrete inputs: the European both-separator case
`"1.234,56"`, the comma-decimal case `"-50,00"` (which matches the
regex) and the regex-implies-two-digit-suffix fact at its stripped
string. -/
theorem parse_amount_separator_spec_witness :
    ((stripAmount "1.234,56").contains ',' = true
      ∧ (stripAmount "1.234,56").contains '.' = true
      ∧ lastSeparator (stripAmount "1.234,56") = some ','
      ∧ parse_amount "1.234,56" = pyFloat (normalizeWith ',' '.' (stripAmount "1.234,56")))
    ∧ ((stripAmount "-50,00").contains ',' = true
      ∧ (stripAmount "-50,00").contains '.' = false
      ∧ parse_amount "-50,00" = pyFloat
          (if matchesCommaDecimalRe (stripAmount "-50,00")
           then normalizeWith ',' '.' (stripAmount "-50,00")
           else normalizeWith '.' ',' (stripAmount "-50,00")))
    ∧ (matchesCommaDecimalRe (stripAmount "-50,00") = true
      ∧ commaFollowedByTwoDigitsAtEnd (stripAmount "-50,00") = true) := by
  obtain ⟨_, hb, hcc, hd⟩ := parse_amount_separator_spec
  exact ⟨⟨by decide, by decide, by decide,
      (hb "1.234,56" (by decide) (by decide)).1 (by decide)⟩,
    ⟨by decide, by decide, hcc "-50,00" (by decide) (by decide)⟩,
    ⟨by decide, hd _ (by decide)⟩⟩

/-! ## CSV date parsing (`routes/import_transactions.py`, `parse_date`) -/

/-- Python `str.strip()`: drop surrounding whitespace. -/
def pyStrip (s : String) : String :=
  String.mk (((s.toList.dropWhile Char.isWhitespace).reverse.dropWhile
    Char.isWhitespace).reverse)

/-- Partially collected `%Y` / `%m` / `%d` values during format
matching. -/
structure DateParts where
  y : Option ℕ := none
  m : Option ℕ := none
  d : Option ℕ := none
  deriving DecidableEq, Repr

/-- `strptime`-style matching of a format string against an input, for
the year/month/day directives the import formats use.  Directive
regexes follow CPython: `%Y` is 1-4 digits (longest first), `%m` is
`1[0-2]|0[1-9]|[1-9]`, `%d` is `3[01]|[12]\d|0[1-9]|[1-9]`; any other
`%` directive fails; the whole input must be consumed. -/
def runFmt : List Char → List Char → DateParts → Option DateParts
  | [], s, p => if s.isEmpty then some p else none
  | '%' :: 'Y' :: fmtRest, s, p =>
      let tryY : ℕ → Option DateParts := fun n =>
        let pre := s.take n
        if pre.length == n && pre.all Char.isDigit then
          runFmt fmtRest (s.drop n) { p with y := some (digitsToNat pre) }
        else none
      tryY 4 <|> tryY 3 <|> tryY 2 <|> tryY 1
  | '%' :: 'm' :: fmtRest, s, p =>
      let tryM : ℕ → Option DateParts := fun n =>
        let pre := s.take n
        let v := digitsToNat pre
        if pre.length == n && pre.all Char.isDigit && 1 ≤ v && v ≤ 12 then
          runFmt fmtRest (s.drop n) { p with m := some v }
        else none
      tryM 2 <|> tryM 1
  | '%' :: 'd' :: fmtRest, s, p =>
      let tryD : ℕ → Option DateParts := fun n =>
        let pre := s.take n
        let v := digitsToNat pre
        if pre.length == n && pre.all Char.isDigit && 1 ≤ v && v ≤ 31 then
          runFmt fmtRest (s.drop n) { p with d := some v }
        else none
      tryD 2 <|> tryD 1
  | '%' :: _ :: _, _, _ => none
  | ['%'], _, _ => none
  | c :: fmtRest, s, p =>
      match s with
      | s0 :: sRest => if s0 == c then runFmt fmtRest sRest p else none
      | [] => none

/-- Gregorian leap year. -/
def isLeap (y : ℕ) : Bool :=
  (y % 4 == 0 && !(y % 100 == 0)) || y % 400 == 0

/-- Days in a month (month already in 1..12 where it matters). -/
def daysInMonth (y m : ℕ) : ℕ :=
  if m = 2 then (if isLeap y then 29 else 28)
  else if m = 4 || m = 6 || m = 9 || m = 11 then 30
  else 31

/-- One `datetime.strptime(date_str, fmt)` attempt: match the format,
default missing fields as strptime does (year 1900, month/day 1), and
validate the values as the `datetime` constructor does. -/
def strptimeYmd (fmt : String) (s : String) : Option (ℕ × ℕ × ℕ) :=
  match runFmt fmt.toList s.toList {} with
  | none => none
  | some p =>
      let y := p.y.getD 1900
      let m := p.m.getD 1
      let d := p.d.getD 1
      if 1 ≤ y && y ≤ 9999 && 1 ≤ d && d ≤ daysInMonth y m then some (y, m, d)
      else none

/-- Zero-padded decimal rendering for `dt.strftime("%Y-%m-%d")`. -/
def padNum (width n : ℕ) : String :=
  let s := toString n
  String.mk (List.replicate (width - s.length) '0') ++ s

/-- `parse_date` (import_transactions.py lines 20-44): strip the input,
try the provided format then the eight fixed fallbacks in order, and
render the first successful parse as `YYYY-MM-DD`; `none` models the
`ValueError` raised when every format fails. -/
def parse_date (date_str : String) (date_format : String) : Option String :=
  let formats_to_try := [date_format, "%Y-%m-%d", "%d/%m/%Y", "%m/%d/%Y",
    "%d.%m.%Y", "%Y/%m/%d", "%d-%m-%Y", "%m-%d-%Y", "%Y%m%d"]
  let ds := pyStrip date_str
  (formats_to_try.findSome? fun fmt => strptimeYmd fmt ds).map fun v =>
    padNum 4 v.1 ++ "-" ++ padNum 2 v.2.1 ++ "-" ++ padNum 2 v.2.2

/-! ## CSV import preview (`routes/import_transactions.py`,
`preview_csv_import`) -/

/-- `ImportedTransaction` (the fields the CSV path fills; `memo`
duplicates `description`). -/
structure ImportedTransaction where
  date : String
  amount : ℚ
  description : Option String
  deriving DecidableEq, Repr

/-- `ImportPreviewResponse`. -/
structure ImportPreviewResponse where
  transactions : List ImportedTransaction
  total : ℕ
  columns : List String
  warnings : List String
  deriving DecidableEq, Repr

/-- The detected column names: the stripped header row, or generated
`Column i` names. -/
def columnsOf (rows : List (List String)) (has_header : Bool) : List String :=
  if has_header then (rows.headD []).map pyStrip
  else (List.range (rows.headD []).length).map fun i => s!"Column {i+1}"

/-- The data rows (header dropped when present). -/
def dataRowsOf (rows : List (List String)) (has_header : Bool) : List (List String) :=
  if has_header then rows.tail else rows

/-- `columns.index(description_column) if description_column and
description_column in columns else None`. -/
def descIdxOf (columns : List String) (description_column : Option String) : Option ℕ :=
  if optTruthy description_column && columns.contains (description_column.getD "") then
    columns.indexOf? (description_column.getD "")
  else none

/-- One iteration of the row loop (import_transactions.py lines
137-156): short rows and rows whose date or amount fails to parse
produce a warning (`Except.error`), successfully parsed rows an
`ImportedTransaction`.  Warning texts for parse failures are
abbreviated. -/
def processRow (date_idx amount_idx : ℕ) (desc_idx : Option ℕ)
    (date_format : String) (row_num : ℕ) (row : List String) :
    Except String ImportedTransaction :=
  if row.length ≤ max date_idx (max amount_idx (desc_idx.getD 0)) then
    .error s!"Row {row_num}: Not enough columns, skipping"
  else
    match parse_date (row.getD date_idx "") date_format with
    | none => .error s!"Row {row_num}: Cannot parse date"
    | some date =>
      match parse_amount (row.getD amount_idx "") with
      | none => .error s!"Row {row_num}: Error parsing amount"
      | some amount =>
          .ok { date := date, amount := amount
                description := desc_idx.map fun i => pyStrip (row.getD i "") }

/-- The full row loop: every row contributes either a transaction or a
warning, and processing always continues with the next row. -/
def previewRows (date_idx amount_idx : ℕ) (desc_idx : Option ℕ)
    (date_format : String) :
    ℕ → List (List String) → List ImportedTransaction × List String
  | _, [] => ([], [])
  | row_num, row :: rest =>
      let r := previewRows date_idx amount_idx desc_idx date_format (row_num + 1) rest
      match processRow date_idx amount_idx desc_idx date_format row_num row with
      | .ok tx => (tx :: r.1, r.2)
      | .error w => (r.1, w :: r.2)

/-- `preview_csv_import` (import_transactions.py lines 72-163) after
file decoding and `csv.reader`: `rows` is the decoded cell matrix.
Empty file → 400; no date/amount mapping (`None` or `""` is falsy) →
the two-phase "please map" response with the detected columns; unknown
mapped column → 400; otherwise the parsed transactions with the
warnings capped at the first 20. -/
def preview_csv_import (rows : List (List String)) (has_header : Bool)
    (date_column amount_column description_column : Option String)
    (date_format : String) : Except String ImportPreviewResponse :=
  if rows.isEmpty then .error "CSV file is empty"
  else
    let columns := columnsOf rows has_header
    let data_rows := dataRowsOf rows has_header
    if !optTruthy date_column || !optTruthy amount_column then
      .ok { transactions := [], total := data_rows.length, columns := columns,
            warnings := ["Please map the date and amount columns to continue."] }
    else
      match columns.indexOf? (date_column.getD ""),
          columns.indexOf? (amount_column.getD "") with
      | some date_idx, some amount_idx =>
          let desc_idx := descIdxOf columns description_column
          let r := previewRows date_idx amount_idx desc_idx date_format
            (if has_header then 2 else 1) data_rows
          .ok { transactions := r.1, total := r.1.length, columns := columns,
                warnings := r.2.take 20 }
      | _, _ => .error "Column not found"

theorem previewRows_length (date_idx amount_idx : ℕ) (desc_idx : Option ℕ)
    (date_format : String) :
    ∀ (n : ℕ) (rows : List (List String)),
      (previewRows date_idx amount_idx desc_idx date_format n rows).1.length
        + (previewRows date_idx amount_idx desc_idx date_format n rows).2.length
        = rows.length := by
  intro n rows
  induction rows generalizing n with
  | nil => simp [previewRows]
  | cons row rest ih =>
    simp only [previewRows]
    cases processRow date_idx amount_idx desc_idx date_format n row with
    | ok tx => simp only [List.length_cons]; rw [← ih (n + 1)]; ring
    | error w => simp only [List.length_cons]; rw [← ih (n + 1)]; ring

theorem previewRows_append (date_idx amount_idx : ℕ) (desc_idx : Option ℕ)
    (date_format : String) :
    ∀ (n : ℕ) (l1 l2 : List (List String)),
      (previewRows date_idx amount_idx desc_idx date_format n (l1 ++ l2)).1
          = (previewRows date_idx amount_idx desc_idx date_format n l1).1
            ++ (previewRows date_idx amount_idx desc_idx date_format (n + l1.length) l2).1
        ∧ (previewRows date_idx amount_idx desc_idx date_format n (l1 ++ l2)).2
          = (previewRows date_idx amount_idx desc_idx date_format n l1).2
            ++ (previewRows date_idx amount_idx desc_idx date_format (n + l1.length) l2).2 := by
  intro n l1 l2
  induction l1 generalizing n with
  | nil => simp [previewRows]
  | cons row rest ih =>
    obtain ⟨ih1, ih2⟩ := ih (n + 1)
    have hn : n + (rest.length + 1) = n + 1 + rest.length := by omega
    simp only [List.cons_append, previewRows, List.length_cons, hn]
    cases h : processRow date_idx amount_idx desc_idx date_format n row with
    | ok tx => simp [h, ih1, ih2]
    | error w => simp [h, ih1, ih2]

/-- C8: CSV preview is two-phase and never aborts on a bad row: on a
non-empty file without date/amount mappings it returns an empty
transactions list, the detected column names and the "Please map..."
warning; with valid mappings it returns the transactions of the row
loop, in which every row yields either a transaction or a warning
(lengths add up to the number of data rows, i.e. no row is dropped
silently and no failure aborts), at most 20 warnings are surfaced, and
processing a concatenation of row blocks processes both blocks
(parsing continues after failures). -/
theorem preview_csv_two_phase :
    (∀ (rows : List (List String)) (has_header : Bool)
        (dc ac dsc : Option String) (fmt : String),
        rows ≠ [] →
        (optTruthy dc = false ∨ optTruthy ac = false) →
        preview_csv_import rows has_header dc ac dsc fmt =
          .ok { transactions := [], total := (dataRowsOf rows has_header).length,
                columns := columnsOf rows has_header,
                warnings := ["Please map the date and amount columns to continue."] })
    ∧ (∀ (rows : List (List String)) (has_header : Bool)
        (dc ac dsc : Option String) (fmt : String) (date_idx amount_idx : ℕ),
        rows ≠ [] →
        optTruthy dc = true → optTruthy ac = true →
        (columnsOf rows has_header).indexOf? (dc.getD "") = some date_idx →
        (columnsOf rows has_header).indexOf? (ac.getD "") = some amount_idx →
        ∃ txs warns,
          preview_csv_import rows has_header dc ac dsc fmt =
            .ok { transactions := txs, total := txs.length,
                  columns := columnsOf rows has_header, warnings := warns.take 20 }
          ∧ (txs, warns) = previewRows date_idx amount_idx
              (descIdxOf (columnsOf rows has_header) dsc) fmt
              (if has_header then 2 else 1) (dataRowsOf rows has_header)
          ∧ txs.length + warns.length = (dataRowsOf rows has_header).length)
    ∧ (∀ (date_idx amount_idx : ℕ) (desc_idx : Option ℕ) (fmt : String) (n : ℕ)
        (l1 l2 : List (List String)),
        (previewRows date_idx amount_idx desc_idx fmt n (l1 ++ l2)).1
          = (previewRows date_idx amount_idx desc_idx fmt n l1).1
            ++ (previewRows date_idx amount_idx desc_idx fmt (n + l1.length) l2).1
        ∧ (previewRows date_idx amount_idx desc_idx fmt n (l1 ++ l2)).2
          = (previewRows date_idx amount_idx desc_idx fmt n l1).2
            ++ (previewRows date_idx amount_idx desc_idx fmt (n + l1.length) l2).2) := by
  refine ⟨?_, ?_, ?_⟩
  · intro rows has_header dc ac dsc fmt hne hfalsy
    obtain ⟨r0, rs, rfl⟩ := List.exists_cons_of_ne_nil hne
    rcases hfalsy with h | h <;>
      simp [preview_csv_import, h]
  · intro rows has_header dc ac dsc fmt date_idx amount_idx hne hdt hat hidx1 hidx2
    obtain ⟨r0, rs, rfl⟩ := List.exists_cons_of_ne_nil hne
    refine ⟨(previewRows date_idx amount_idx
        (descIdxOf (columnsOf (r0 :: rs) has_header) dsc) fmt
        (if has_header then 2 else 1) (dataRowsOf (r0 :: rs) has_header)).1,
      (previewRows date_idx amount_idx
        (descIdxOf (columnsOf (r0 :: rs) has_header) dsc) fmt
        (if has_header then 2 else 1) (dataRowsOf (r0 :: rs) has_header)).2,
      ?_, rfl, previewRows_length _ _ _ _ _ _⟩
    simp [preview_csv_import, hdt, hat, hidx1, hidx2]
  · intro date_idx amount_idx desc_idx fmt n l1 l2
    exact previewRows_append date_idx amount_idx desc_idx fmt n l1 l2

/-- The sample CSV used by the C8 witness: a header row, two good rows
and one bad row. -/
def exCsvRows : List (List String) :=
  [["date", "amount", "note"],
   ["2024-01-15", "1,234.56", "a"],
   ["bad", "x", "b"],
   ["2024-01-16", "-50,00", "c"]]

/-- Witness for C8: phase one without mappings, phase two with the
`date`/`amount` columns mapped, and the continuation property on a
concrete split. -/
theorem preview_csv_two_phase_witness :
    (preview_csv_import exCsvRows true none (some "amount") (some "note") "%Y-%m-%d" =
      .ok { transactions := [], total := (dataRowsOf exCsvRows true).length,
            columns := columnsOf exCsvRows true,
            warnings := ["Please map the date and amount columns to continue."] })
    ∧ (∃ txs warns,
        preview_csv_import exCsvRows true (some "date") (some "amount") (some "note")
            "%Y-%m-%d" =
          .ok { transactions := txs, total := txs.length,
                columns := columnsOf exCsvRows true, warnings := warns.take 20 }
        ∧ (txs, warns) = previewRows 0 1 (descIdxOf (columnsOf exCsvRows true) (some "note"))
            "%Y-%m-%d" 2 (dataRowsOf exCsvRows true)
        ∧ txs.length + warns.length = (dataRowsOf exCsvRows true).length)
    ∧ ((previewRows 0 1 (some 2) "%Y-%m-%d" 2
          ([["2024-01-15", "1,234.56", "a"]] ++ [["bad", "x", "b"]])).1
        = (previewRows 0 1 (some 2) "%Y-%m-%d" 2 [["2024-01-15", "1,234.56", "a"]]).1
          ++ (previewRows 0 1 (some 2) "%Y-%m-%d" 3 [["bad", "x", "b"]]).1) := by
  obtain ⟨h1, h2, h3⟩ := preview_csv_two_phase
  refine ⟨h1 exCsvRows true none (some "amount") (some "note") "%Y-%m-%d"
      (by decide) (Or.inl (by decide)),
    h2 exCsvRows true (some "date") (some "amount") (some "note") "%Y-%m-%d" 0 1
      (by decide) (by decide) (by decide) (by decide) (by decide), ?_⟩
  have := (h3 0 1 (some 2) "%Y-%m-%d" 2
    [["2024-01-15", "1,234.56", "a"]] [["bad", "x", "b"]]).1
  simpa using this

end SelfSufficient
